import Mathlib

/-!
Shallow embedding of the Railway n8n CLI credential-injection service
(src/index.js, enhanced version). Impure inputs — subprocess outcomes,
database query results, filesystem call outcomes, generated UUID and
timestamps — are passed explicitly as an environment, and the external
actions the service attempts (database reads/writes, scratch-file
operations, subprocess invocations) are recorded in an effect trace.
-/

/-- JS string containment test on character lists: does the needle occur
at the head of the haystack? -/
def matchesAt : List Char → List Char → Bool
  | _, [] => true
  | [], _ :: _ => false
  | c :: cs, d :: ds => c == d && matchesAt cs ds

/-- Does the needle occur anywhere in the haystack? -/
def subOccurs (needle : List Char) : List Char → Bool
  | [] => matchesAt [] needle
  | c :: t => matchesAt (c :: t) needle || subOccurs needle t

/-- Embedding of JS String.prototype.includes. -/
def strIncludes (hay needle : String) : Bool :=
  subOccurs needle.data hay.data

/-- Embedding of JS falsiness for a request-body / environment string
field: undefined (none) and the empty string are falsy. -/
def jsFalsy : Option String → Bool
  | none => true
  | some s => s.isEmpty

/-- Embedding of a JS "x || d" default on a possibly-absent string. -/
def jsOrString (x : Option String) (d : String) : String :=
  match x with
  | none => d
  | some s => if s.isEmpty then d else s

/-- Embedding of provider.charAt(0).toUpperCase() + provider.slice(1). -/
def jsCapitalize (s : String) : String :=
  match s.data with
  | [] => ""
  | c :: cs => String.mk (Char.toUpper c :: cs)

/-- Outcome of one subprocess run, as provided by the operating system:
its exit code, whether the 60s timeout (or a spawn failure) killed it,
and its output streams. -/
structure ProcResult where
  exitCode : Nat
  timedOut : Bool
  stdout : String
  stderr : String
deriving DecidableEq

/-- What a resolved exec promise carries. -/
structure ExecOutput where
  stdout : String
  stderr : String
deriving DecidableEq

/-- Node's promisify(exec), as used by the service: the promise resolves
with the output streams only when the child exits with code 0; a non-zero
exit code, a timeout kill or a spawn failure reject the promise. -/
def execAsync (p : ProcResult) : Except String ExecOutput :=
  if p.timedOut then
    Except.error "Command failed: killed by timeout"
  else if p.exitCode ≠ 0 then
    Except.error ("Command failed with exit code " ++ toString p.exitCode)
  else
    Except.ok { stdout := p.stdout, stderr := p.stderr }

/-- The three import strategies of the enhanced importer. -/
inductive Strategy where
  | basic
  | userFolder
  | minimal
deriving DecidableEq

def Strategy.name : Strategy → String
  | .basic => "basic"
  | .userFolder => "userFolder"
  | .minimal => "minimal"

/-- The command line built by tryImportCommand for each strategy. -/
def importCommand (tempFilePath : String) : Strategy → String
  | .basic => "n8n import:credentials --input=" ++ tempFilePath
  | .userFolder => "n8n import:credentials --input=" ++ tempFilePath ++ " --userFolder=/tmp/.n8n"
  | .minimal => "n8n import:credentials --input=" ++ tempFilePath

/-- The nested data payload of a credential template. -/
structure CredentialPayload where
  clientId : String
  clientSecret : String
  accessToken : String
  refreshToken : String
  tokenType : String
  grantType : String
deriving DecidableEq

/-- What the JS lookup credentialTypes[provider] can hand to the template's
type field: one of the mapped type-tag strings for an own property of the
lookup object, or — for a provider string naming a property inherited from
Object.prototype (such as constructor, toString, valueOf, __proto__) — the
truthy inherited value itself, which is not a string. -/
inductive TypeTag where
  | str (s : String)
  | inherited (key : String)
deriving DecidableEq

/-- The credential template produced by createCredentialTemplate. -/
structure CredentialTemplate where
  id : String
  name : String
  type : TypeTag
  data : CredentialPayload
  createdAt : String
  updatedAt : String
deriving DecidableEq

/-- The import document produced by generateCredentialJSON (the service
serializes it to JSON; its shape is what matters here). -/
structure ImportDocument where
  version : String
  credentials : List CredentialTemplate
  workflows : List String
deriving DecidableEq

def generateCredentialJSON (credentials : List CredentialTemplate) : ImportDocument :=
  { version := "1.0.0", credentials := credentials, workflows := [] }

/-- The external actions the service attempts, in order. -/
inductive Effect where
  | dbQuerySocial (userId provider : String)
  | dbQueryUser (userId : String)
  | writeScratch (doc : ImportDocument)
  | mkdirUserFolder
  | runImport (s : Strategy)
  | readScratch
  | unlinkScratch
  | statusUpdate (userId provider : String) (success : Bool) (credentialId : Option String)
deriving DecidableEq

/-- The details object of a successful import. -/
structure ImportDetails where
  method : String
  output : String
  strategy : String
deriving DecidableEq

/-- What tryImportCommand returns when it does not throw. -/
structure SuccessPayload where
  credentialId : String
  message : String
  details : ImportDetails
deriving DecidableEq

/-- Embedding of tryImportCommand: run the strategy's command; on a
resolved exec promise scan stdout for the success indicators; when one is
present, read the credential id back from the scratch file (its first
credential's id) and return a success object; otherwise throw. A rejected
exec promise propagates as the thrown error. The returned list records
the external actions attempted. -/
def tryImportCommand (p : ProcResult) (doc : ImportDocument) (s : Strategy) :
    Except String SuccessPayload × List Effect :=
  match execAsync p with
  | Except.error e => (Except.error e, [Effect.runImport s])
  | Except.ok out =>
    if strIncludes out.stdout "Successfully imported" ||
       strIncludes out.stdout "imported" ||
       strIncludes out.stdout "credential" then
      match doc.credentials.head? with
      | none =>
        (Except.error "TypeError: cannot read properties of undefined", [Effect.runImport s, Effect.readScratch])
      | some t =>
        (Except.ok
          { credentialId := t.id,
            message := "Credentials imported successfully using " ++ s.name ++ " strategy",
            details :=
              { method := "railway_cli_" ++ s.name,
                output := out.stdout,
                strategy := s.name } },
         [Effect.runImport s, Effect.readScratch])
    else
      (Except.error ("Import command completed but no success indicators found. Output: " ++ out.stdout),
       [Effect.runImport s])

/-- The fixed troubleshooting payload of the all-strategies-failed result. -/
structure Troubleshooting where
  strategies_tried : List String
  common_fixes : List String
deriving DecidableEq

def commonFixes : List String :=
  ["Rebuild Docker image with proper n8n installation",
   "Check n8n global installation",
   "Verify file permissions in container"]

/-- What executeN8NCLIEnhanced returns to the request handler. -/
structure ImportResult where
  success : Bool
  credentialId : Option String := none
  message : String
  details : Option ImportDetails := none
  troubleshooting : Option Troubleshooting := none
deriving DecidableEq

def successResult (p : SuccessPayload) : ImportResult :=
  { success := true,
    credentialId := some p.credentialId,
    message := p.message,
    details := some p.details }

def failureResult (msg : String) : ImportResult :=
  { success := false,
    message := msg,
    troubleshooting := some { strategies_tried := ["basic", "userFolder", "minimal"], common_fixes := commonFixes } }

/-- Filesystem/subprocess environment of one executeN8NCLIEnhanced call:
whether the scratch-file write succeeds (and the thrown message when it
does not), whether the strategy-2 mkdir succeeds, the subprocess outcome
each strategy would observe, and whether the best-effort unlink succeeds. -/
structure CLIEnv where
  writeFileOk : Bool
  writeFileErrMsg : String
  mkdirOk : Bool
  procBasic : ProcResult
  procUserFolder : ProcResult
  procMinimal : ProcResult
  unlinkOk : Bool
deriving DecidableEq

/-- Embedding of executeN8NCLIEnhanced: write the scratch file, try the
three strategies in order, deleting the scratch file on a success return;
any throw (including the write failing, the strategy-2 mkdir failing, or
all strategies failing) lands in the outer catch, which attempts the
best-effort delete and returns the fixed failure result. It never throws. -/
def executeN8NCLIEnhanced (env : CLIEnv) (doc : ImportDocument) : ImportResult × List Effect :=
  if env.writeFileOk = false then
    (failureResult env.writeFileErrMsg, [Effect.unlinkScratch])
  else
    let a1 := tryImportCommand env.procBasic doc Strategy.basic
    match a1.1 with
    | Except.ok p =>
      (successResult p, Effect.writeScratch doc :: a1.2 ++ [Effect.unlinkScratch])
    | Except.error _ =>
      if env.mkdirOk = false then
        let a3 := tryImportCommand env.procMinimal doc Strategy.minimal
        match a3.1 with
        | Except.ok p =>
          (successResult p,
           Effect.writeScratch doc :: a1.2 ++ [Effect.mkdirUserFolder] ++ a3.2 ++ [Effect.unlinkScratch])
        | Except.error _ =>
          (failureResult "All import strategies failed",
           Effect.writeScratch doc :: a1.2 ++ [Effect.mkdirUserFolder] ++ a3.2 ++ [Effect.unlinkScratch])
      else
        let a2 := tryImportCommand env.procUserFolder doc Strategy.userFolder
        match a2.1 with
        | Except.ok p =>
          (successResult p,
           Effect.writeScratch doc :: a1.2 ++ [Effect.mkdirUserFolder] ++ a2.2 ++ [Effect.unlinkScratch])
        | Except.error _ =>
          let a3 := tryImportCommand env.procMinimal doc Strategy.minimal
          match a3.1 with
          | Except.ok p =>
            (successResult p,
             Effect.writeScratch doc :: a1.2 ++ [Effect.mkdirUserFolder] ++ a2.2 ++ a3.2 ++ [Effect.unlinkScratch])
          | Except.error _ =>
            (failureResult "All import strategies failed",
             Effect.writeScratch doc :: a1.2 ++ [Effect.mkdirUserFolder] ++ a2.2 ++ a3.2 ++ [Effect.unlinkScratch])

/-- A row of user_social_credentials, as read by fetchUserCredentials. -/
structure SocialRow where
  access_token : String
  refresh_token : Option String
  client_id : String
  client_secret : String
deriving DecidableEq

/-- A row of the user table, as read by fetchUserCredentials. -/
structure UserRow where
  n8n_url : String
  n8n_user_email : Option String
  n8n_encryption_key : String
  email : String
deriving DecidableEq

/-- A supabase single() response: a data field and an error field (zero
rows leave data null; a backend error sets the error field). -/
structure QueryResult (α : Type) where
  data : Option α
  error : Option String
deriving DecidableEq

/-- Database environment of one fetchUserCredentials call. -/
structure FetchEnv where
  social : QueryResult SocialRow
  userInfo : QueryResult UserRow
deriving DecidableEq

/-- The merged structure fetchUserCredentials returns. -/
structure CredData where
  user_id : String
  provider : String
  access_token : String
  refresh_token : String
  client_id : String
  client_secret : String
  n8n_url : String
  n8n_user_email : String
  n8n_encryption_key : String
deriving DecidableEq

/-- Embedding of fetchUserCredentials: query the social-credentials row,
then the user row; any error or missing data on either query yields null
(the two causes are not distinguished). The list records the queries
attempted. -/
def fetchUserCredentials (env : FetchEnv) (userId provider : String) :
    Option CredData × List Effect :=
  let t1 := [Effect.dbQuerySocial userId provider]
  match env.social.error, env.social.data with
  | some _, _ => (none, t1)
  | none, none => (none, t1)
  | none, some socialCred =>
    let t2 := t1 ++ [Effect.dbQueryUser userId]
    match env.userInfo.error, env.userInfo.data with
    | some _, _ => (none, t2)
    | none, none => (none, t2)
    | none, some userInfo =>
      (some
        { user_id := userId,
          provider := provider,
          access_token := socialCred.access_token,
          refresh_token := jsOrString socialCred.refresh_token "",
          client_id := socialCred.client_id,
          client_secret := socialCred.client_secret,
          n8n_url := userInfo.n8n_url,
          n8n_user_email := jsOrString userInfo.n8n_user_email userInfo.email,
          n8n_encryption_key := userInfo.n8n_encryption_key }, t2)

/-- The property names every plain JS object literal inherits from
Object.prototype; looking any of them up on the credentialTypes object
yields a truthy (function or object) value, not undefined. -/
def objectProtoKeys : List String :=
  ["constructor", "hasOwnProperty", "isPrototypeOf", "propertyIsEnumerable",
   "toLocaleString", "toString", "valueOf", "__proto__",
   "__defineGetter__", "__defineSetter__", "__lookupGetter__", "__lookupSetter__"]

/-- The JS property lookup credentialTypes[provider] on the object literal
mapping google, spotify and github: an own property gives its string
value; a property inherited from Object.prototype gives the truthy
inherited value; any other key is undefined (none). -/
def credentialTypes (provider : String) : Option TypeTag :=
  if provider = "google" then some (TypeTag.str "googleOAuth2Api")
  else if provider = "spotify" then some (TypeTag.str "spotifyOAuth2Api")
  else if provider = "github" then some (TypeTag.str "githubOAuth2Api")
  else if provider ∈ objectProtoKeys then some (TypeTag.inherited provider)
  else none

/-- Embedding of createCredentialTemplate. The generated UUID and the two
timestamp strings are impure inputs, passed explicitly. An unmapped
provider throws. -/
def createCredentialTemplate (credData : CredData) (credentialId : String)
    (timestamp : String) (nowIso : String) : Except String CredentialTemplate :=
  match credentialTypes credData.provider with
  | none => Except.error ("Unsupported provider: " ++ credData.provider)
  | some credentialType =>
    Except.ok
      { id := credentialId,
        name := jsCapitalize credData.provider ++ " OAuth2 - " ++ timestamp,
        type := credentialType,
        data :=
          { clientId := credData.client_id,
            clientSecret := credData.client_secret,
            accessToken := credData.access_token,
            refreshToken := credData.refresh_token,
            tokenType := "Bearer",
            grantType := "authorizationCode" },
        createdAt := nowIso,
        updatedAt := nowIso }

/-- Embedding of updateCredentialStatus: the supabase update either
reports no error (ok) or an error object, which is escalated as a throw. -/
def updateCredentialStatus (updateError : Option String) : Except String Unit :=
  match updateError with
  | some m => Except.error ("Database update failed: " ++ m)
  | none => Except.ok ()

/-- The service configuration read from the process environment. -/
structure Config where
  SUPABASE_URL : Option String
  SUPABASE_SERVICE_KEY : Option String
deriving DecidableEq

/-- Environment of one POST /inject-credential request: configuration,
whether the pre-flight n8n version probe succeeds, the database responses,
the importer's filesystem/subprocess environment, the status-update
outcome, and the generated UUID and timestamps. -/
structure HandlerEnv where
  config : Config
  cliAvailable : Bool
  fetch : FetchEnv
  cli : CLIEnv
  statusUpdateError : Option String
  uuid : String
  minuteStamp : String
  nowIso : String
deriving DecidableEq

/-- A POST /inject-credential request body. -/
structure RequestBody where
  user_id : Option String
  provider : Option String
  attempt : Option Nat
deriving DecidableEq

/-- The response the handler sends (fields not set on a path are none). -/
structure HttpResponse where
  status : Nat
  success : Bool
  message : String
  error_type : Option String := none
  credential_id : Option String := none
  attempt : Option Nat := none
  troubleshooting : Option Troubleshooting := none
deriving DecidableEq

/-- Embedding of the POST /inject-credential handler: validate the body
fields (JS falsiness), check configuration, probe the CLI, fetch the
credential data, build the template and document, run the enhanced
importer, write the status update, and map the outcome to a response.
Any throw (unsupported provider, status-update failure) lands in the
outer catch, which answers 500 with error_type railway_service_error. -/
def injectCredential (env : HandlerEnv) (body : RequestBody) : HttpResponse × List Effect :=
  if jsFalsy body.user_id || jsFalsy body.provider then
    ({ status := 400, success := false, message := "Missing user_id or provider" }, [])
  else if jsFalsy env.config.SUPABASE_URL || jsFalsy env.config.SUPABASE_SERVICE_KEY then
    ({ status := 500, success := false, message := "Missing Supabase configuration" }, [])
  else if env.cliAvailable = false then
    ({ status := 500, success := false,
       message := "N8N CLI is not available in this environment",
       error_type := some "cli_unavailable" }, [])
  else
    let user_id := jsOrString body.user_id ""
    let provider := jsOrString body.provider ""
    let fetched := fetchUserCredentials env.fetch user_id provider
    match fetched.1 with
    | none =>
      ({ status := 404, success := false,
         message := "User credentials or n8n configuration not found" }, fetched.2)
    | some credData =>
      match createCredentialTemplate credData env.uuid env.minuteStamp env.nowIso with
      | Except.error msg =>
        ({ status := 500, success := false, message := msg,
           error_type := some "railway_service_error" }, fetched.2)
      | Except.ok template =>
        let run := executeN8NCLIEnhanced env.cli (generateCredentialJSON [template])
        let trace := fetched.2 ++ run.2 ++
          [Effect.statusUpdate user_id provider run.1.success run.1.credentialId]
        match updateCredentialStatus env.statusUpdateError with
        | Except.error msg =>
          ({ status := 500, success := false, message := msg,
             error_type := some "railway_service_error" }, trace)
        | Except.ok _ =>
          if run.1.success then
            ({ status := 200, success := true,
               message := "Credentials injected successfully via Railway n8n CLI",
               credential_id := run.1.credentialId }, trace)
          else
            ({ status := 500, success := false, message := run.1.message,
               attempt := some (body.attempt.getD 1),
               troubleshooting := run.1.troubleshooting }, trace)

/-- Effect classifier: is this external action a status-update write? -/
def isStatusUpdate : Effect → Bool
  | .statusUpdate _ _ _ _ => true
  | _ => false

/-- Effect classifier: is this external action a read-only database query? -/
def isDbRead : Effect → Bool
  | .dbQuerySocial _ _ => true
  | .dbQueryUser _ => true
  | _ => false

/-! Concrete fixtures used to instantiate the theorems below. -/

def tpl0 : CredentialTemplate :=
  { id := "cid-1", name := "Google OAuth2 - 2025-01-01 00:00", type := TypeTag.str "googleOAuth2Api",
    data := { clientId := "ci", clientSecret := "cs", accessToken := "at", refreshToken := "rt",
              tokenType := "Bearer", grantType := "authorizationCode" },
    createdAt := "t", updatedAt := "t" }

def doc0 : ImportDocument := generateCredentialJSON [tpl0]

/-- A subprocess run that prints a success indicator but exits non-zero. -/
def procFail0 : ProcResult :=
  { exitCode := 1, timedOut := false, stdout := "Successfully imported 1 credential", stderr := "" }

/-- A subprocess run that prints a success indicator and exits zero. -/
def procOk0 : ProcResult :=
  { exitCode := 0, timedOut := false, stdout := "Successfully imported 1 credential", stderr := "" }

/-- A subprocess run that exits zero but prints no success indicator. -/
def procNoInd0 : ProcResult :=
  { exitCode := 0, timedOut := false, stdout := "", stderr := "" }

def cliEnvOk : CLIEnv :=
  { writeFileOk := true, writeFileErrMsg := "", mkdirOk := true,
    procBasic := procOk0, procUserFolder := procOk0, procMinimal := procOk0, unlinkOk := true }

def cliEnvAllFail : CLIEnv :=
  { writeFileOk := true, writeFileErrMsg := "", mkdirOk := true,
    procBasic := procNoInd0, procUserFolder := procNoInd0, procMinimal := procNoInd0, unlinkOk := true }

def credG : CredData :=
  { user_id := "u1", provider := "google", access_token := "at", refresh_token := "rt",
    client_id := "ci", client_secret := "cs", n8n_url := "http://n8n", n8n_user_email := "e@x",
    n8n_encryption_key := "k" }

def credBad : CredData := { credG with provider := "slack" }

/-- A credential whose provider names a property inherited from
Object.prototype. -/
def credCtor : CredData := { credG with provider := "constructor" }

/-- The template the builder produces for provider "constructor": the
type field carries the truthy inherited lookup value, and construction
does not throw. -/
def tplCtor : CredentialTemplate :=
  { id := "id1", name := "Constructor OAuth2 - ts", type := TypeTag.inherited "constructor",
    data := { clientId := "ci", clientSecret := "cs", accessToken := "at", refreshToken := "rt",
              tokenType := "Bearer", grantType := "authorizationCode" },
    createdAt := "now", updatedAt := "now" }

def tplG : CredentialTemplate :=
  { id := "id1", name := "Google OAuth2 - ts", type := TypeTag.str "googleOAuth2Api",
    data := { clientId := "ci", clientSecret := "cs", accessToken := "at", refreshToken := "rt",
              tokenType := "Bearer", grantType := "authorizationCode" },
    createdAt := "now", updatedAt := "now" }

def fetchEnvOk : FetchEnv :=
  { social := { data := some { access_token := "at", refresh_token := some "rt",
                               client_id := "ci", client_secret := "cs" }, error := none },
    userInfo := { data := some { n8n_url := "http://n8n", n8n_user_email := some "e@x",
                                 n8n_encryption_key := "k", email := "m@x" }, error := none } }

def bodyOk : RequestBody := { user_id := some "u1", provider := some "google", attempt := some 1 }

def bodyMissing : RequestBody := { user_id := none, provider := some "google", attempt := none }

def bodyEmpty : RequestBody := { user_id := some "u1", provider := some "", attempt := none }

def bodyBad : RequestBody := { user_id := some "u1", provider := some "slack", attempt := none }

def bodyCtor : RequestBody := { user_id := some "u1", provider := some "constructor", attempt := none }

def envOk : HandlerEnv :=
  { config := { SUPABASE_URL := some "http://sb", SUPABASE_SERVICE_KEY := some "sk" },
    cliAvailable := true, fetch := fetchEnvOk, cli := cliEnvOk,
    statusUpdateError := none, uuid := "id1", minuteStamp := "ts", nowIso := "now" }

def envUpdFail : HandlerEnv := { envOk with statusUpdateError := some "boom" }

def envNoRows : HandlerEnv :=
  { envOk with fetch := { social := { data := none, error := some "PGRST116" },
                          userInfo := fetchEnvOk.userInfo } }

/-- An environment whose social-credentials row is found but whose
user-configuration query errors. -/
def envUserErr : HandlerEnv :=
  { envOk with fetch := { social := fetchEnvOk.social,
                          userInfo := { data := none, error := some "connection reset" } } }

/-! Helper lemmas about the effect traces. -/

theorem tryImportCommand_trace_pure (p : ProcResult) (doc : ImportDocument) (s : Strategy) :
    ((tryImportCommand p doc s).2).filter isStatusUpdate = [] := by
  unfold tryImportCommand
  repeat' split
  all_goals simp [isStatusUpdate]

theorem executeN8NCLIEnhanced_trace_pure (env : CLIEnv) (doc : ImportDocument) :
    ((executeN8NCLIEnhanced env doc).2).filter isStatusUpdate = [] := by
  unfold executeN8NCLIEnhanced
  rcases h1 : (tryImportCommand env.procBasic doc Strategy.basic).1 with e1 | p1 <;>
  rcases h2 : (tryImportCommand env.procUserFolder doc Strategy.userFolder).1 with e2 | p2 <;>
  rcases h3 : (tryImportCommand env.procMinimal doc Strategy.minimal).1 with e3 | p3 <;>
  by_cases hw : env.writeFileOk = false <;>
  by_cases hm : env.mkdirOk = false <;>
  simp [hw, hm, h1, h2, h3, List.filter_append, tryImportCommand_trace_pure, isStatusUpdate]

theorem fetchUserCredentials_trace_pure (env : FetchEnv) (uid prov : String) :
    ((fetchUserCredentials env uid prov).2).filter isStatusUpdate = [] := by
  unfold fetchUserCredentials
  repeat' split
  all_goals simp [isStatusUpdate]

theorem fetchUserCredentials_trace_dbreads (env : FetchEnv) (uid prov : String) :
    ((fetchUserCredentials env uid prov).2).all isDbRead = true := by
  unfold fetchUserCredentials
  repeat' split
  all_goals simp [isDbRead]

theorem getLast_append_singleton {α : Type} (l : List α) (x : α) :
    (l ++ [x]).getLast? = some x := by
  rw [List.getLast?_append_cons]; rfl

theorem getLast_append_pair {α : Type} (l1 l2 : List α) (x : α) :
    (l1 ++ (l2 ++ [x])).getLast? = some x := by
  rw [List.getLast?_append_of_ne_nil l1 (by simp), List.getLast?_append_cons]; rfl

/-! The claim theorems. -/

/-- Claim C1, counterexample: a strategy attempt whose subprocess prints
every success substring on stdout but exits with code 1 is reported as a
failure (the promisified exec rejects on a non-zero exit before the stdout
scan runs), contradicting "success regardless of the subprocess's exit
code". -/
theorem tryImportCommand_nonzero_exit_counterexample :
    strIncludes procFail0.stdout "Successfully imported" = true ∧
    strIncludes procFail0.stdout "imported" = true ∧
    strIncludes procFail0.stdout "credential" = true ∧
    procFail0.exitCode = 1 ∧
    (tryImportCommand procFail0 doc0 Strategy.basic).1.isOk = false := by decide

/-- Claim C1, amended: for an attempt whose scratch document is nonempty,
the attempt is reported as success exactly when the subprocess call
resolves — no timeout and exit code zero — and its stdout contains one of
the success substrings. In particular a zero-exit attempt with none of
the substrings is a failure, and a non-zero-exit attempt is a failure
regardless of stdout. -/
theorem tryImportCommand_success_iff (p : ProcResult) (doc : ImportDocument) (s : Strategy)
    (hdoc : doc.credentials ≠ []) :
    (tryImportCommand p doc s).1.isOk = true ↔
      (p.timedOut = false ∧ p.exitCode = 0 ∧
        (strIncludes p.stdout "Successfully imported" ||
         strIncludes p.stdout "imported" ||
         strIncludes p.stdout "credential") = true) := by
  rcases doc with ⟨v, creds, w⟩
  cases creds with
  | nil => exact absurd rfl hdoc
  | cons t ts =>
    by_cases ht : p.timedOut <;>
    by_cases he : p.exitCode = 0 <;>
    by_cases hi : (strIncludes p.stdout "Successfully imported" ||
                   strIncludes p.stdout "imported" ||
                   strIncludes p.stdout "credential") = true <;>
    simp [tryImportCommand, execAsync, ht, he, hi, Except.isOk, Except.toBool]

/-- Claim C1, witness for the amended theorem at a concrete resolving run. -/
theorem tryImportCommand_success_iff_witness :
    doc0.credentials ≠ [] ∧
    ((tryImportCommand procOk0 doc0 Strategy.basic).1.isOk = true ↔
      (procOk0.timedOut = false ∧ procOk0.exitCode = 0 ∧
        (strIncludes procOk0.stdout "Successfully imported" ||
         strIncludes procOk0.stdout "imported" ||
         strIncludes procOk0.stdout "credential") = true)) :=
  ⟨by decide, tryImportCommand_success_iff procOk0 doc0 Strategy.basic (by decide)⟩

/-- Claim C2: for every request that passes validation, configuration,
CLI pre-flight, lookup and template construction, the effect trace
contains exactly one status-update write, against that (user_id,
provider), after the importer finishes — whether the importer reports
success or failure and whether or not the write itself succeeds. -/
theorem injectCredential_one_status_write (env : HandlerEnv) (body : RequestBody)
    (cred : CredData) (tpl : CredentialTemplate)
    (hu : jsFalsy body.user_id = false) (hp : jsFalsy body.provider = false)
    (hc1 : jsFalsy env.config.SUPABASE_URL = false)
    (hc2 : jsFalsy env.config.SUPABASE_SERVICE_KEY = false)
    (hcli : env.cliAvailable = true)
    (hf : (fetchUserCredentials env.fetch (jsOrString body.user_id "") (jsOrString body.provider "")).1 = some cred)
    (ht : createCredentialTemplate cred env.uuid env.minuteStamp env.nowIso = Except.ok tpl) :
    ((injectCredential env body).2).filter isStatusUpdate =
      [Effect.statusUpdate (jsOrString body.user_id "") (jsOrString body.provider "")
        (executeN8NCLIEnhanced env.cli (generateCredentialJSON [tpl])).1.success
        (executeN8NCLIEnhanced env.cli (generateCredentialJSON [tpl])).1.credentialId] := by
  rcases hs : env.statusUpdateError with _ | m <;>
  by_cases hr : (executeN8NCLIEnhanced env.cli (generateCredentialJSON [tpl])).1.success <;>
  simp [injectCredential, hu, hp, hc1, hc2, hcli, hf, ht, hs, hr, updateCredentialStatus,
        List.filter_append, fetchUserCredentials_trace_pure, executeN8NCLIEnhanced_trace_pure,
        isStatusUpdate]

/-- Claim C2, witness at a fully concrete passing request. -/
theorem injectCredential_one_status_write_witness :
    (jsFalsy bodyOk.user_id = false ∧ jsFalsy bodyOk.provider = false ∧
     jsFalsy envOk.config.SUPABASE_URL = false ∧
     jsFalsy envOk.config.SUPABASE_SERVICE_KEY = false ∧
     envOk.cliAvailable = true ∧
     (fetchUserCredentials envOk.fetch (jsOrString bodyOk.user_id "") (jsOrString bodyOk.provider "")).1 = some credG ∧
     createCredentialTemplate credG envOk.uuid envOk.minuteStamp envOk.nowIso = Except.ok tplG) ∧
    ((injectCredential envOk bodyOk).2).filter isStatusUpdate =
      [Effect.statusUpdate (jsOrString bodyOk.user_id "") (jsOrString bodyOk.provider "")
        (executeN8NCLIEnhanced envOk.cli (generateCredentialJSON [tplG])).1.success
        (executeN8NCLIEnhanced envOk.cli (generateCredentialJSON [tplG])).1.credentialId] :=
  ⟨⟨rfl, rfl, rfl, rfl, rfl, by decide, rfl⟩,
   injectCredential_one_status_write envOk bodyOk credG tplG rfl rfl rfl rfl rfl (by decide) rfl⟩

/-- Claim C3: a request body lacking user_id or lacking provider gets a
400 response and an empty effect trace — no database query, no
scratch-file write, no subprocess invocation, no status-update write. -/
theorem injectCredential_missing_field (env : HandlerEnv) (body : RequestBody)
    (h : body.user_id = none ∨ body.provider = none) :
    (injectCredential env body).1.status = 400 ∧ (injectCredential env body).2 = [] := by
  rcases h with h | h <;> simp [injectCredential, jsFalsy, h]

/-- Claim C3, witness at a body with user_id absent. -/
theorem injectCredential_missing_field_witness :
    (bodyMissing.user_id = none ∨ bodyMissing.provider = none) ∧
    (injectCredential envOk bodyMissing).1.status = 400 ∧
    (injectCredential envOk bodyMissing).2 = [] :=
  ⟨Or.inl rfl, injectCredential_missing_field envOk bodyMissing (Or.inl rfl)⟩

/-- Claim C4, counterexample: provider "constructor" is not one of the
three mapped providers, yet template construction does not throw — the
JS lookup credentialTypes["constructor"] finds the truthy value inherited
from Object.prototype, so the unsupported-provider check does not fire. -/
theorem createCredentialTemplate_inherited_counterexample :
    (credCtor.provider ≠ "google" ∧ credCtor.provider ≠ "spotify" ∧
     credCtor.provider ≠ "github") ∧
    (createCredentialTemplate credCtor "id1" "ts" "now").isOk = true := by decide

/-- Claim C4, amended: the template's type field follows the fixed
provider mapping for google, spotify and github; a provider string naming
a property inherited from Object.prototype does not throw either — the
lookup yields the truthy inherited value as the type; every other
provider string makes template construction throw "Unsupported
provider". -/
theorem createCredentialTemplate_type_mapping (cred : CredData) (uuid ts now : String) :
    (cred.provider = "google" →
      ∃ t, createCredentialTemplate cred uuid ts now = Except.ok t ∧
        t.type = TypeTag.str "googleOAuth2Api") ∧
    (cred.provider = "spotify" →
      ∃ t, createCredentialTemplate cred uuid ts now = Except.ok t ∧
        t.type = TypeTag.str "spotifyOAuth2Api") ∧
    (cred.provider = "github" →
      ∃ t, createCredentialTemplate cred uuid ts now = Except.ok t ∧
        t.type = TypeTag.str "githubOAuth2Api") ∧
    (cred.provider ∈ objectProtoKeys →
      ∃ t, createCredentialTemplate cred uuid ts now = Except.ok t ∧
        t.type = TypeTag.inherited cred.provider) ∧
    ((cred.provider ≠ "google" ∧ cred.provider ≠ "spotify" ∧ cred.provider ≠ "github") ∧
      cred.provider ∉ objectProtoKeys →
      createCredentialTemplate cred uuid ts now =
        Except.error ("Unsupported provider: " ++ cred.provider)) := by
  refine ⟨fun h => ?_, fun h => ?_, fun h => ?_, fun h => ?_, fun h => ?_⟩
  · simp only [createCredentialTemplate, credentialTypes, h, if_true, reduceIte]
    exact ⟨_, rfl, rfl⟩
  · simp only [createCredentialTemplate, credentialTypes, h, reduceIte]
    exact ⟨_, rfl, rfl⟩
  · simp only [createCredentialTemplate, credentialTypes, h, reduceIte]
    exact ⟨_, rfl, rfl⟩
  · simp only [objectProtoKeys, List.mem_cons, List.not_mem_nil, or_false] at h
    rcases h with h | h | h | h | h | h | h | h | h | h | h | h <;>
      (simp only [createCredentialTemplate, credentialTypes, objectProtoKeys, h, reduceIte,
                  List.mem_cons, List.not_mem_nil]
       exact ⟨_, rfl, by simp [h]⟩)
  · simp [createCredentialTemplate, credentialTypes, h.1.1, h.1.2.1, h.1.2.2, h.2]

/-- Claim C4, witness at a google credential, at an inherited-property
provider name, and at an unmapped provider. -/
theorem createCredentialTemplate_type_mapping_witness :
    (credG.provider = "google" ∧
      ∃ t, createCredentialTemplate credG "id1" "ts" "now" = Except.ok t ∧
        t.type = TypeTag.str "googleOAuth2Api") ∧
    (credCtor.provider ∈ objectProtoKeys ∧
      ∃ t, createCredentialTemplate credCtor "id1" "ts" "now" = Except.ok t ∧
        t.type = TypeTag.inherited credCtor.provider) ∧
    (((credBad.provider ≠ "google" ∧ credBad.provider ≠ "spotify" ∧ credBad.provider ≠ "github") ∧
      credBad.provider ∉ objectProtoKeys) ∧
      createCredentialTemplate credBad "id1" "ts" "now" =
        Except.error ("Unsupported provider: " ++ credBad.provider)) :=
  ⟨⟨rfl, (createCredentialTemplate_type_mapping credG "id1" "ts" "now").1 rfl⟩,
   ⟨by decide, (createCredentialTemplate_type_mapping credCtor "id1" "ts" "now").2.2.2.1 (by decide)⟩,
   ⟨⟨⟨by decide, by decide, by decide⟩, by decide⟩,
    (createCredentialTemplate_type_mapping credBad "id1" "ts" "now").2.2.2.2
      ⟨⟨by decide, by decide, by decide⟩, by decide⟩⟩⟩

/-- Claim C5: when all three strategy attempts fail, the importer returns
a failure result whose troubleshooting payload lists exactly basic,
userFolder, minimal, in that order. -/
theorem executeN8NCLIEnhanced_all_fail (env : CLIEnv) (doc : ImportDocument)
    (h1 : (tryImportCommand env.procBasic doc Strategy.basic).1.isOk = false)
    (h2 : (tryImportCommand env.procUserFolder doc Strategy.userFolder).1.isOk = false)
    (h3 : (tryImportCommand env.procMinimal doc Strategy.minimal).1.isOk = false) :
    (executeN8NCLIEnhanced env doc).1.success = false ∧
    (executeN8NCLIEnhanced env doc).1.troubleshooting =
      some { strategies_tried := ["basic", "userFolder", "minimal"],
             common_fixes := commonFixes } := by
  obtain ⟨e1, hx1⟩ : ∃ e, (tryImportCommand env.procBasic doc Strategy.basic).1 = Except.error e := by
    rcases hx : (tryImportCommand env.procBasic doc Strategy.basic).1 with e | p
    · exact ⟨e, rfl⟩
    · rw [hx] at h1; simp [Except.isOk, Except.toBool] at h1
  obtain ⟨e2, hx2⟩ : ∃ e, (tryImportCommand env.procUserFolder doc Strategy.userFolder).1 = Except.error e := by
    rcases hx : (tryImportCommand env.procUserFolder doc Strategy.userFolder).1 with e | p
    · exact ⟨e, rfl⟩
    · rw [hx] at h2; simp [Except.isOk, Except.toBool] at h2
  obtain ⟨e3, hx3⟩ : ∃ e, (tryImportCommand env.procMinimal doc Strategy.minimal).1 = Except.error e := by
    rcases hx : (tryImportCommand env.procMinimal doc Strategy.minimal).1 with e | p
    · exact ⟨e, rfl⟩
    · rw [hx] at h3; simp [Except.isOk, Except.toBool] at h3
  unfold executeN8NCLIEnhanced
  by_cases hw : env.writeFileOk = false <;>
  by_cases hm : env.mkdirOk = false <;>
  simp [hw, hm, hx1, hx2, hx3, failureResult]

/-- Claim C5, witness at an environment where every strategy's subprocess
exits zero without printing a success indicator. -/
theorem executeN8NCLIEnhanced_all_fail_witness :
    ((tryImportCommand cliEnvAllFail.procBasic doc0 Strategy.basic).1.isOk = false ∧
     (tryImportCommand cliEnvAllFail.procUserFolder doc0 Strategy.userFolder).1.isOk = false ∧
     (tryImportCommand cliEnvAllFail.procMinimal doc0 Strategy.minimal).1.isOk = false) ∧
    (executeN8NCLIEnhanced cliEnvAllFail doc0).1.success = false ∧
    (executeN8NCLIEnhanced cliEnvAllFail doc0).1.troubleshooting =
      some { strategies_tried := ["basic", "userFolder", "minimal"],
             common_fixes := commonFixes } :=
  ⟨⟨by decide, by decide, by decide⟩,
   executeN8NCLIEnhanced_all_fail cliEnvAllFail doc0 (by decide) (by decide) (by decide)⟩

/-- Claim C6: when the status-update write fails after the importer
reported success, the whole request fails with a 500 response of
error_type railway_service_error and message from the database error,
and the trace ends at the status-update write — no compensating action
follows the already-performed import. -/
theorem injectCredential_status_write_failure (env : HandlerEnv) (body : RequestBody)
    (cred : CredData) (tpl : CredentialTemplate) (m : String)
    (hu : jsFalsy body.user_id = false) (hp : jsFalsy body.provider = false)
    (hc1 : jsFalsy env.config.SUPABASE_URL = false)
    (hc2 : jsFalsy env.config.SUPABASE_SERVICE_KEY = false)
    (hcli : env.cliAvailable = true)
    (hf : (fetchUserCredentials env.fetch (jsOrString body.user_id "") (jsOrString body.provider "")).1 = some cred)
    (ht : createCredentialTemplate cred env.uuid env.minuteStamp env.nowIso = Except.ok tpl)
    (hok : (executeN8NCLIEnhanced env.cli (generateCredentialJSON [tpl])).1.success = true)
    (hupd : env.statusUpdateError = some m) :
    (injectCredential env body).1.status = 500 ∧
    (injectCredential env body).1.error_type = some "railway_service_error" ∧
    (injectCredential env body).1.message = "Database update failed: " ++ m ∧
    (injectCredential env body).2.getLast? =
      some (Effect.statusUpdate (jsOrString body.user_id "") (jsOrString body.provider "")
        true (executeN8NCLIEnhanced env.cli (generateCredentialJSON [tpl])).1.credentialId) := by
  simp [injectCredential, hu, hp, hc1, hc2, hcli, hf, ht, hok, hupd, updateCredentialStatus,
        getLast_append_singleton, getLast_append_pair]

/-- Claim C6, witness at a concrete request whose import succeeds and
whose status write fails. -/
theorem injectCredential_status_write_failure_witness :
    ((fetchUserCredentials envUpdFail.fetch (jsOrString bodyOk.user_id "") (jsOrString bodyOk.provider "")).1 = some credG ∧
     createCredentialTemplate credG envUpdFail.uuid envUpdFail.minuteStamp envUpdFail.nowIso = Except.ok tplG ∧
     (executeN8NCLIEnhanced envUpdFail.cli (generateCredentialJSON [tplG])).1.success = true ∧
     envUpdFail.statusUpdateError = some "boom") ∧
    (injectCredential envUpdFail bodyOk).1.status = 500 ∧
    (injectCredential envUpdFail bodyOk).1.error_type = some "railway_service_error" ∧
    (injectCredential envUpdFail bodyOk).1.message = "Database update failed: " ++ "boom" ∧
    (injectCredential envUpdFail bodyOk).2.getLast? =
      some (Effect.statusUpdate (jsOrString bodyOk.user_id "") (jsOrString bodyOk.provider "")
        true (executeN8NCLIEnhanced envUpdFail.cli (generateCredentialJSON [tplG])).1.credentialId) :=
  ⟨⟨by decide, rfl, by decide, rfl⟩,
   injectCredential_status_write_failure envUpdFail bodyOk credG tplG "boom"
     rfl rfl rfl rfl rfl (by decide) rfl (by decide) rfl⟩

/-- Claim C7: on every importer path that wrote the scratch file,
deletion of the scratch file is attempted, and the deletion's own outcome
never changes anything the importer returns. -/
theorem executeN8NCLIEnhanced_unlink (env : CLIEnv) (doc : ImportDocument)
    (hw : env.writeFileOk = true) :
    Effect.unlinkScratch ∈ (executeN8NCLIEnhanced env doc).2 ∧
    ∀ b, executeN8NCLIEnhanced { env with unlinkOk := b } doc = executeN8NCLIEnhanced env doc := by
  constructor
  · unfold executeN8NCLIEnhanced
    rcases h1 : (tryImportCommand env.procBasic doc Strategy.basic).1 with e1 | p1 <;>
    rcases h2 : (tryImportCommand env.procUserFolder doc Strategy.userFolder).1 with e2 | p2 <;>
    rcases h3 : (tryImportCommand env.procMinimal doc Strategy.minimal).1 with e3 | p3 <;>
    by_cases hm : env.mkdirOk = false <;>
    simp [hw, hm, h1, h2, h3]
  · intro b; rfl

/-- Claim C7, witness at a concrete importer environment, with the
swallowed-deletion-failure conjunct instantiated at a failing unlink. -/
theorem executeN8NCLIEnhanced_unlink_witness :
    cliEnvOk.writeFileOk = true ∧
    Effect.unlinkScratch ∈ (executeN8NCLIEnhanced cliEnvOk doc0).2 ∧
    executeN8NCLIEnhanced { cliEnvOk with unlinkOk := false } doc0 =
      executeN8NCLIEnhanced cliEnvOk doc0 :=
  ⟨rfl, (executeN8NCLIEnhanced_unlink cliEnvOk doc0 rfl).1,
   (executeN8NCLIEnhanced_unlink cliEnvOk doc0 rfl).2 false⟩

/-- Claim C8: whether either lookup — the social-credentials query or the
user-configuration query — returned zero rows or errored, the fetcher
returns the same null and the handler answers 404 with the same message;
the causes are indistinguishable to the caller. -/
theorem fetchUserCredentials_miss_404 (env : HandlerEnv) (body : RequestBody)
    (hu : jsFalsy body.user_id = false) (hp : jsFalsy body.provider = false)
    (hc1 : jsFalsy env.config.SUPABASE_URL = false)
    (hc2 : jsFalsy env.config.SUPABASE_SERVICE_KEY = false)
    (hcli : env.cliAvailable = true)
    (hz : env.fetch.social.data = none ∨ env.fetch.social.error ≠ none ∨
          env.fetch.userInfo.data = none ∨ env.fetch.userInfo.error ≠ none) :
    (fetchUserCredentials env.fetch (jsOrString body.user_id "") (jsOrString body.provider "")).1 = none ∧
    (injectCredential env body).1.status = 404 ∧
    (injectCredential env body).1.message = "User credentials or n8n configuration not found" := by
  have hnone : (fetchUserCredentials env.fetch (jsOrString body.user_id "") (jsOrString body.provider "")).1 = none := by
    unfold fetchUserCredentials
    rcases hse : env.fetch.social.error with _ | e
    · rcases hsd : env.fetch.social.data with _ | row
      · simp [hse, hsd]
      · rcases hue : env.fetch.userInfo.error with _ | e2
        · rcases hud : env.fetch.userInfo.data with _ | urow
          · simp [hse, hsd, hue, hud]
          · rcases hz with hz | hz | hz | hz <;> simp_all
        · simp [hse, hsd, hue]
    · simp [hse]
  exact ⟨hnone, by simp [injectCredential, hu, hp, hc1, hc2, hcli, hnone]⟩

/-- Claim C8, witness at a concrete zero-rows social lookup and at a
concrete erroring user-configuration lookup. -/
theorem fetchUserCredentials_miss_404_witness :
    ((envNoRows.fetch.social.data = none ∨ envNoRows.fetch.social.error ≠ none ∨
      envNoRows.fetch.userInfo.data = none ∨ envNoRows.fetch.userInfo.error ≠ none) ∧
     (fetchUserCredentials envNoRows.fetch (jsOrString bodyOk.user_id "") (jsOrString bodyOk.provider "")).1 = none ∧
     (injectCredential envNoRows bodyOk).1.status = 404 ∧
     (injectCredential envNoRows bodyOk).1.message = "User credentials or n8n configuration not found") ∧
    ((envUserErr.fetch.social.data = none ∨ envUserErr.fetch.social.error ≠ none ∨
      envUserErr.fetch.userInfo.data = none ∨ envUserErr.fetch.userInfo.error ≠ none) ∧
     (fetchUserCredentials envUserErr.fetch (jsOrString bodyOk.user_id "") (jsOrString bodyOk.provider "")).1 = none ∧
     (injectCredential envUserErr bodyOk).1.status = 404 ∧
     (injectCredential envUserErr bodyOk).1.message = "User credentials or n8n configuration not found") :=
  ⟨⟨Or.inl rfl,
    fetchUserCredentials_miss_404 envNoRows bodyOk rfl rfl rfl rfl rfl (Or.inl rfl)⟩,
   ⟨Or.inr (Or.inr (Or.inr (by decide))),
    fetchUserCredentials_miss_404 envUserErr bodyOk rfl rfl rfl rfl rfl
      (Or.inr (Or.inr (Or.inr (by decide))))⟩⟩

/-- Claim C9: a body field that is present but the empty string trips the
same falsiness check as an absent field: 400, "Missing user_id or
provider", and an empty effect trace. -/
theorem injectCredential_empty_field (env : HandlerEnv) (body : RequestBody)
    (h : body.user_id = some "" ∨ body.provider = some "") :
    (injectCredential env body).1.status = 400 ∧
    (injectCredential env body).1.message = "Missing user_id or provider" ∧
    (injectCredential env body).2 = [] := by
  rcases h with h | h <;> simp [injectCredential, jsFalsy, h, String.isEmpty]

/-- Claim C9, witness at a body whose provider is the empty string. -/
theorem injectCredential_empty_field_witness :
    (bodyEmpty.user_id = some "" ∨ bodyEmpty.provider = some "") ∧
    (injectCredential envOk bodyEmpty).1.status = 400 ∧
    (injectCredential envOk bodyEmpty).1.message = "Missing user_id or provider" ∧
    (injectCredential envOk bodyEmpty).2 = [] :=
  ⟨Or.inr rfl, injectCredential_empty_field envOk bodyEmpty (Or.inr rfl)⟩

/-- Claim C10, counterexample: a request for provider "constructor" —
not a supported provider — whose lookup succeeds does not get a 500:
template construction finds the value inherited from Object.prototype
and does not throw, so the request proceeds through the scratch-file
write, the subprocess import and the status-update write (here to a 200),
contradicting the claimed 500-with-no-further-side-effects. -/
theorem injectCredential_inherited_counterexample :
    (fetchUserCredentials envOk.fetch (jsOrString bodyCtor.user_id "") (jsOrString bodyCtor.provider "")).1 = some credCtor ∧
    (credCtor.provider ≠ "google" ∧ credCtor.provider ≠ "spotify" ∧
     credCtor.provider ≠ "github") ∧
    (injectCredential envOk bodyCtor).1.status = 200 ∧
    (injectCredential envOk bodyCtor).2 =
      [Effect.dbQuerySocial "u1" "constructor", Effect.dbQueryUser "u1",
       Effect.writeScratch (generateCredentialJSON [tplCtor]),
       Effect.runImport Strategy.basic, Effect.readScratch, Effect.unlinkScratch,
       Effect.statusUpdate "u1" "constructor" true (some "id1")] := by decide

/-- Claim C10, amended: an unsupported provider that is also not an
Object.prototype property name, with a successful lookup, makes the
handler answer 500 with error_type railway_service_error and the
unsupported-provider message, and the effect trace holds only the two
read-only database queries — no scratch-file write, no subprocess, no
status update. For a provider naming an inherited property, construction
does not throw and the request proceeds (see the counterexample). -/
theorem injectCredential_unsupported_provider (env : HandlerEnv) (body : RequestBody)
    (cred : CredData)
    (hu : jsFalsy body.user_id = false) (hp : jsFalsy body.provider = false)
    (hc1 : jsFalsy env.config.SUPABASE_URL = false)
    (hc2 : jsFalsy env.config.SUPABASE_SERVICE_KEY = false)
    (hcli : env.cliAvailable = true)
    (hf : (fetchUserCredentials env.fetch (jsOrString body.user_id "") (jsOrString body.provider "")).1 = some cred)
    (hprov : (cred.provider ≠ "google" ∧ cred.provider ≠ "spotify" ∧ cred.provider ≠ "github") ∧
      cred.provider ∉ objectProtoKeys) :
    (injectCredential env body).1.status = 500 ∧
    (injectCredential env body).1.error_type = some "railway_service_error" ∧
    (injectCredential env body).1.message = "Unsupported provider: " ++ cred.provider ∧
    ((injectCredential env body).2).all isDbRead = true := by
  have htpl : createCredentialTemplate cred env.uuid env.minuteStamp env.nowIso =
      Except.error ("Unsupported provider: " ++ cred.provider) := by
    simp [createCredentialTemplate, credentialTypes, hprov.1.1, hprov.1.2.1, hprov.1.2.2, hprov.2]
  simp [injectCredential, hu, hp, hc1, hc2, hcli, hf, htpl, fetchUserCredentials_trace_dbreads]

/-- Claim C10, witness at a concrete request for provider slack. -/
theorem injectCredential_unsupported_provider_witness :
    ((fetchUserCredentials envOk.fetch (jsOrString bodyBad.user_id "") (jsOrString bodyBad.provider "")).1 = some credBad ∧
     ((credBad.provider ≠ "google" ∧ credBad.provider ≠ "spotify" ∧ credBad.provider ≠ "github") ∧
      credBad.provider ∉ objectProtoKeys)) ∧
    (injectCredential envOk bodyBad).1.status = 500 ∧
    (injectCredential envOk bodyBad).1.error_type = some "railway_service_error" ∧
    (injectCredential envOk bodyBad).1.message = "Unsupported provider: " ++ credBad.provider ∧
    ((injectCredential envOk bodyBad).2).all isDbRead = true :=
  ⟨⟨by decide, ⟨⟨by decide, by decide, by decide⟩, by decide⟩⟩,
   injectCredential_unsupported_provider envOk bodyBad credBad rfl rfl rfl rfl rfl
     (by decide) ⟨⟨by decide, by decide, by decide⟩, by decide⟩⟩
